import Mathlib

/-!
# Verification of `docs/source/src/python/user-guide/io/cloud-storage.py`

The artifact under verification is a documentation page of the polars
repository: a Python module whose entire content is one module-level string
literal (a docstring) holding short, marker-delimited usage snippets for
cloud-storage reads and writes.

The development embeds the artifact at three levels:

* the exact text of the file, line by line (`fileLines`), from which the
  doc-extraction regions, the docstring structure and the token stream of
  individual snippets are computed;
* a syntax-tree transcription of each snippet (`PExpr` / `PStmt`), over
  which generic analyses (free names, entry-point calls, credential-supply
  forms, lazy-scan materialization) are defined;
* executable models of the two credential-provider callbacks and of the
  refresh contract of the library caller.
-/

set_option maxRecDepth 100000

namespace CloudStorageDoc

/-- The exact lines of `docs/source/src/python/user-guide/io/cloud-storage.py`
(139 lines, no trailing newline after the last). Braces of the original text
are written with escape codes. -/
def fileLines : List String := [
  "\"\"\"",
  "# --8<-- [start:read_parquet]",
  "import polars as pl",
  "",
  "source = \"s3://bucket/*.parquet\"",
  "",
  "df = pl.read_parquet(source)",
  "# --8<-- [end:read_parquet]",
  "",
  "# --8<-- [start:scan_parquet_query]",
  "import polars as pl",
  "",
  "source = \"s3://bucket/*.parquet\"",
  "",
  "df = pl.scan_parquet(source).filter(pl.col(\"id\") < 100).select(\"id\",\"value\").collect()",
  "# --8<-- [end:scan_parquet_query]",
  "",
  "",
  "# --8<-- [start:scan_parquet_storage_options_aws]",
  "import polars as pl",
  "",
  "source = \"s3://bucket/*.parquet\"",
  "",
  "storage_options = \x7b",
  "    \"aws_access_key_id\": \"<secret>\",",
  "    \"aws_secret_access_key\": \"<secret>\",",
  "    \"aws_region\": \"us-east-1\",",
  "\x7d",
  "df = pl.scan_parquet(source, storage_options=storage_options).collect()",
  "# --8<-- [end:scan_parquet_storage_options_aws]",
  "",
  "# --8<-- [start:credential_provider_class]",
  "lf = pl.scan_parquet(",
  "    \"s3://.../...\",",
  "    credential_provider=pl.CredentialProviderAWS(",
  "        profile_name=\"...\"",
  "        assume_role=\x7b",
  "            \"RoleArn\": f\"...\",",
  "            \"RoleSessionName\": \"...\",",
  "        \x7d",
  "    ),",
  ")",
  "",
  "df = lf.collect()",
  "# --8<-- [end:credential_provider_class]",
  "",
  "# --8<-- [start:credential_provider_custom_func]",
  "def get_credentials() -> pl.CredentialProviderFunctionReturn:",
  "    expiry = None",
  "",
  "    return \x7b",
  "        \"aws_access_key_id\": \"...\",",
  "        \"aws_secret_access_key\": \"...\",",
  "        \"aws_session_token\": \"...\",",
  "    \x7d, expiry",
  "",
  "",
  "lf = pl.scan_parquet(",
  "    \"s3://.../...\",",
  "    credential_provider=get_credentials,",
  ")",
  "",
  "df = lf.collect()",
  "# --8<-- [end:credential_provider_custom_func]",
  "",
  "# --8<-- [start:credential_provider_custom_func_azure]",
  "def credential_provider():",
  "    credential = DefaultAzureCredential(exclude_managed_identity_credential=True)",
  "    token = credential.get_token(\"https://storage.azure.com/.default\")",
  "",
  "    return \x7b\"bearer_token\": token.token\x7d, token.expires_on",
  "",
  "",
  "pl.scan_parquet(",
  "    \"abfss://...@.../...\",",
  "    credential_provider=credential_provider,",
  ")",
  "",
  "# Note that for the above case, this shortcut is also available:",
  "",
  "pl.scan_parquet(",
  "    \"abfss://...@.../...\",",
  "    credential_provider=pl.CredentialProviderAzure(",
  "        credentials=DefaultAzureCredential(exclude_managed_identity_credential=True)",
  "    ),",
  ")",
  "",
  "# --8<-- [end:credential_provider_custom_func_azure]",
  "",
  "# --8<-- [start:scan_pyarrow_dataset]",
  "import polars as pl",
  "import pyarrow.dataset as ds",
  "",
  "dset = ds.dataset(\"s3://my-partitioned-folder/\", format=\"parquet\")",
  "(",
  "    pl.scan_pyarrow_dataset(dset)",
  "    .filter(pl.col(\"foo\") == \"a\")",
  "    .select([\"foo\", \"bar\"])",
  "    .collect()",
  ")",
  "# --8<-- [end:scan_pyarrow_dataset]",
  "",
  "# --8<-- [start:write_parquet]",
  "import polars as pl",
  "",
  "df = pl.DataFrame(",
  "    \x7b",
  "        \"foo\": [\"a\", \"b\", \"c\", \"d\", \"d\"],",
  "        \"bar\": [1, 2, 3, 4, 5],",
  "    \x7d",
  ")",
  "",
  "destination = \"s3://bucket/my_file.parquet\"",
  "",
  "df.write_parquet(destination)",
  "",
  "# --8<-- [end:write_parquet]",
  "",
  "# --8<-- [start:write_file_object]",
  "import polars as pl",
  "import s3fs",
  "import gzip",
  "",
  "df = pl.DataFrame(",
  "    \x7b",
  "        \"foo\": [\"a\", \"b\", \"c\", \"d\", \"d\"],",
  "        \"bar\": [1, 2, 3, 4, 5],",
  "    \x7d",
  ")",
  "",
  "destination = \"s3://bucket/my_file.csv.gz\"",
  "",
  "fs = s3fs.S3FileSystem()",
  "",
  "with fs.open(destination, \"wb\") as cloud_f:",
  "    with gzip.open(cloud_f, \"w\") as f:",
  "        df.write_csv(f)",
  "# --8<-- [end:write_file_object]",
  "\"\"\""
]

/-! ## Level 1: the module as a single docstring (claim on module effects)

A CPython module whose only statement is a string-literal expression binds
the module attribute `__doc__` to that string and performs nothing else.
The parser below recognizes exactly that shape: an opening line that is the
triple-quote delimiter, a closing line that is the triple-quote delimiter,
and no triple quote anywhere in between. -/

/-- `true` when the character list contains the three-character sequence
of a triple double quote. -/
def hasTripleQuote : List Char → Bool
  | '"' :: '"' :: '"' :: _ => true
  | _ :: cs => hasTripleQuote cs
  | [] => false

/-- The triple-quote delimiter line. -/
def tripleQuoteLine : String := "\"\"\""

/-- The top level of a Python module in the fragment the artifact uses:
a single string-literal expression statement. -/
inductive PyModuleShape where
  | docstringOnly (body : List String)
  deriving DecidableEq, Repr

/-- Recognize a module whose entire text is one triple-quoted string
literal: first line is the opening delimiter, last line is the closing
delimiter, and no intervening line contains a triple quote. -/
def parseDocstringModule (ls : List String) : Option PyModuleShape :=
  match ls with
  | [] => none
  | first :: rest =>
    if first = tripleQuoteLine then
      match rest.getLast? with
      | none => none
      | some lastLine =>
        if lastLine = tripleQuoteLine then
          let body := rest.dropLast
          if body.all (fun l => !hasTripleQuote l.toList) then
            some (.docstringOnly body)
          else none
        else none
    else none

/-- Observable side effects of executing a module (library calls,
credential lookups, cloud I/O would all appear here). -/
inductive ModuleEffect where
  | libraryCall (name : String)
  | credentialLookup
  | cloudIO
  deriving DecidableEq, Repr

/-- Executing a module of the recognized shape: a string-literal
expression statement evaluates the literal and (being the first statement)
binds `__doc__`; it produces no effects. Returns the `__doc__` binding and
the effect trace. -/
def execModuleShape : PyModuleShape → Option (List String) × List ModuleEffect
  | .docstringOnly body => (some body, [])

/-! ## Level 1: doc-extraction regions -/

/-- Strip a leading character pattern, or fail. -/
def stripPre : List Char → List Char → Option (List Char)
  | [], cs => some cs
  | _ :: _, [] => none
  | p :: ps, c :: cs => if c = p then stripPre ps cs else none

/-- Strip one trailing closing bracket, or fail. -/
def stripCloseBracket : List Char → Option (List Char)
  | [] => none
  | [c] => if c = ']' then some [] else none
  | c :: cs => (stripCloseBracket cs).map (c :: ·)

/-- If the line is `pre` followed by a name and a closing bracket, that
name. -/
def markerName (pre : String) (l : String) : Option String :=
  match stripPre pre.toList l.toList with
  | none => none
  | some rest => (stripCloseBracket rest).map List.asString

/-- If the line is a `--8<--` start marker, the snippet name it opens. -/
def startMarkerName (l : String) : Option String :=
  markerName "# --8<-- [start:" l

/-- If the line is a `--8<--` end marker, the snippet name it closes. -/
def endMarkerName (l : String) : Option String :=
  markerName "# --8<-- [end:" l

/-- A marked extraction region: its name and the lines strictly between
its start and end markers. -/
structure Region where
  name : String
  body : List String
  deriving DecidableEq, Repr

/-- Scan the file lines, pairing each start marker with the matching end
marker and collecting the lines in between (the markers in the file are
sequential and non-nested). `acc` holds the currently open region, if any. -/
def collectRegions : List String → Option (String × List String) → List Region
  | [], _ => []
  | l :: ls, none =>
    match startMarkerName l with
    | some n => collectRegions ls (some (n, []))
    | none => collectRegions ls none
  | l :: ls, some (n, body) =>
    match endMarkerName l with
    | some m =>
      if m = n then ⟨n, body.reverse⟩ :: collectRegions ls none
      else collectRegions ls (some (n, l :: body))
    | none => collectRegions ls (some (n, l :: body))

/-- The marked regions of the artifact. -/
def regions : List Region := collectRegions fileLines none

/-- Raw length of a region: every line between its markers. -/
def regionRawLen (r : Region) : Nat := r.body.length

/-- Number of non-blank lines of a region. -/
def regionNonBlankLen (r : Region) : Nat :=
  (r.body.filter (fun l => l ≠ "")).length

/-! ## Level 1: token stream of the `credential_provider_class` argument text

Python's grammar requires the arguments of a call to be separated by
commas (`arguments := argument ("," argument)* [","]`, with
`argument := identifier "=" expression` for keyword arguments).  The
recognizer below implements that comma-separation rule for the fragment
of Python appearing in the snippet: keyword arguments whose values are
string literals, f-string literals, or dict displays with string keys.
A token stream accepted by `acceptsKwargList` is a syntactically valid
keyword-argument sequence; a rejected one is a Python syntax error. -/

inductive Tok where
  | ident (s : String)
  | strLit (s : String)
  | fstrLit (s : String)
  | lpar | rpar | lbrace | rbrace
  | comma | eqSign | colon
  | other (c : Char)
  deriving DecidableEq, Repr

/-- Characters allowed in a Python identifier. -/
def isIdentChar (c : Char) : Bool :=
  c.isAlpha || c.isDigit || c = '_'

/-- Consume characters of a string literal up to the closing quote
(no escape sequences occur in the artifact). Returns content and rest. -/
def takeStringLit : List Char → (List Char × List Char)
  | [] => ([], [])
  | '"' :: cs => ([], cs)
  | c :: cs =>
    let (content, rest) := takeStringLit cs
    (c :: content, rest)

/-- Consume an identifier. Returns content and rest. -/
def takeIdent : List Char → (List Char × List Char)
  | [] => ([], [])
  | c :: cs =>
    if isIdentChar c then
      let (content, rest) := takeIdent cs
      (c :: content, rest)
    else ([], c :: cs)

/-- Tokenize a character list of the Python fragment: whitespace and
newlines separate tokens; a double quote opens a string literal; an
identifier that is exactly `f` immediately followed by a double quote
forms an f-string. -/
def tokenizeChars (fuel : Nat) : List Char → List Tok
  | [] => []
  | c :: cs =>
    match fuel with
    | 0 => []
    | fuel + 1 =>
      if c = ' ' ∨ c = '\n' then tokenizeChars fuel cs
      else if c = '"' then
        let (content, rest) := takeStringLit cs
        .strLit (String.mk content) :: tokenizeChars fuel rest
      else if c = '(' then .lpar :: tokenizeChars fuel cs
      else if c = ')' then .rpar :: tokenizeChars fuel cs
      else if c = '\x7b' then .lbrace :: tokenizeChars fuel cs
      else if c = '\x7d' then .rbrace :: tokenizeChars fuel cs
      else if c = ',' then .comma :: tokenizeChars fuel cs
      else if c = '=' then .eqSign :: tokenizeChars fuel cs
      else if c = ':' then .colon :: tokenizeChars fuel cs
      else if isIdentChar c then
        let (content, rest) := takeIdent (c :: cs)
        match content, rest with
        | ['f'], '"' :: rest2 =>
          let (scontent, rest3) := takeStringLit rest2
          .fstrLit (String.mk scontent) :: tokenizeChars fuel rest3
        | _, _ => .ident (String.mk content) :: tokenizeChars fuel rest
      else .other c :: tokenizeChars fuel cs

/-- Tokenize a list of text lines. -/
def tokenizeLines (ls : List String) : List Tok :=
  let text := String.intercalate "\n" ls
  tokenizeChars (text.length * 2 + 2) text.toList

mutual
/-- `value := strLit | fstrLit | dict`. Returns the remaining tokens on
success. -/
def parseValue (fuel : Nat) (ts : List Tok) : Option (List Tok) :=
  match fuel with
  | 0 => none
  | fuel + 1 =>
    match ts with
    | .strLit _ :: rest => some rest
    | .fstrLit _ :: rest => some rest
    | .lbrace :: rest =>
      match parseEntries fuel rest with
      | some (.rbrace :: rest2) => some rest2
      | _ => none
    | _ => none

/-- `entries := ε | entry ("," entry)* [","]` where
`entry := (strLit | fstrLit) ":" value`; stops before the closing brace. -/
def parseEntries (fuel : Nat) (ts : List Tok) : Option (List Tok) :=
  match fuel with
  | 0 => none
  | fuel + 1 =>
    match ts with
    | .rbrace :: _ => some ts
    | .strLit _ :: .colon :: rest =>
      match parseValue fuel rest with
      | some (.comma :: rest2) => parseEntries fuel rest2
      | some rest2 => some rest2
      | none => none
    | .fstrLit _ :: .colon :: rest =>
      match parseValue fuel rest with
      | some (.comma :: rest2) => parseEntries fuel rest2
      | some rest2 => some rest2
      | none => none
    | _ => none
end

/-- `kwargs := ε | kwarg ("," kwarg)* [","]` where
`kwarg := ident "=" value`; accepts when the whole token list is consumed. -/
def parseKwargList (fuel : Nat) (ts : List Tok) : Bool :=
  match fuel with
  | 0 => false
  | fuel + 1 =>
    match ts with
    | [] => true
    | .ident _ :: .eqSign :: rest =>
      match parseValue fuel rest with
      | some [] => true
      | some (.comma :: rest2) => parseKwargList fuel rest2
      | _ => false
    | _ => false

/-- A token stream is a syntactically valid keyword-argument sequence. -/
def acceptsKwargList (ts : List Tok) : Bool :=
  parseKwargList (ts.length * 2 + 2) ts

/-- The argument text of the `pl.CredentialProviderAWS(...)` call in the
`credential_provider_class` snippet: file lines 36 to 40. -/
def credentialProviderAWSArgLines : List String :=
  (fileLines.drop 35).take 5

/-- The same argument text with the missing comma inserted after the
`profile_name` keyword argument. -/
def credentialProviderAWSArgLinesFixed : List String :=
  match credentialProviderAWSArgLines with
  | first :: rest => (first ++ ",") :: rest
  | [] => []

/-! ## Level 2: syntax trees of the snippets

Each snippet is transcribed statement by statement into the abstract
syntax below.  (The `credential_provider_class` snippet is transcribed
with the keyword arguments as written; its missing comma is a purely
lexical defect and is treated at the token level above.) -/

/-- Python expressions of the fragment used by the snippets. -/
inductive PExpr where
  | str (s : String)
  | fstr (s : String)
  | num (n : Int)
  | boolLit (b : Bool)
  | noneLit
  | name (x : String)
  | attr (e : PExpr) (field : String)
  | call (f : PExpr) (args : List PExpr) (kwargs : List (String × PExpr))
  | dict (entries : List (PExpr × PExpr))
  | listE (elems : List PExpr)
  | tuple (elems : List PExpr)
  | cmp (op : String) (a b : PExpr)

/-- Python statements of the fragment used by the snippets. -/
inductive PStmt where
  | importAs (modName asName : String)
  | assign (lhs : String) (rhs : PExpr)
  | exprStmt (e : PExpr)
  | funcDef (fname : String) (params : List String)
      (retAnn : Option PExpr) (body : List PStmt)
  | ret (e : PExpr)
  | withStmt (ctx : PExpr) (asName : String) (body : List PStmt)
  | comment (s : String)

/-- A snippet: its marker name and its statements. -/
structure Snippet where
  sname : String
  stmts : List PStmt

open PExpr PStmt

/-- Snippet `read_parquet` (file lines 3-7). -/
def readParquetSnippet : Snippet :=
  ⟨"read_parquet",
   [importAs "polars" "pl",
    assign "source" (str "s3://bucket/*.parquet"),
    assign "df" (call (attr (name "pl") "read_parquet") [name "source"] [])]⟩

/-- Snippet `scan_parquet_query` (file lines 11-15). -/
def scanParquetQuerySnippet : Snippet :=
  ⟨"scan_parquet_query",
   [importAs "polars" "pl",
    assign "source" (str "s3://bucket/*.parquet"),
    assign "df"
      (call
        (attr
          (call
            (attr
              (call
                (attr
                  (call (attr (name "pl") "scan_parquet") [name "source"] [])
                  "filter")
                [cmp "<" (call (attr (name "pl") "col") [str "id"] []) (num 100)]
                [])
              "select")
            [str "id", str "value"] [])
          "collect")
        [] [])]⟩

/-- Snippet `scan_parquet_storage_options_aws` (file lines 20-29). -/
def storageOptionsAWSSnippet : Snippet :=
  ⟨"scan_parquet_storage_options_aws",
   [importAs "polars" "pl",
    assign "source" (str "s3://bucket/*.parquet"),
    assign "storage_options"
      (dict [(str "aws_access_key_id", str "<secret>"),
             (str "aws_secret_access_key", str "<secret>"),
             (str "aws_region", str "us-east-1")]),
    assign "df"
      (call
        (attr
          (call (attr (name "pl") "scan_parquet") [name "source"]
            [("storage_options", name "storage_options")])
          "collect")
        [] [])]⟩

/-- Snippet `credential_provider_class` (file lines 33-44). -/
def credentialProviderClassSnippet : Snippet :=
  ⟨"credential_provider_class",
   [assign "lf"
      (call (attr (name "pl") "scan_parquet") [str "s3://.../..."]
        [("credential_provider",
          call (attr (name "pl") "CredentialProviderAWS") []
            [("profile_name", str "..."),
             ("assume_role",
              dict [(str "RoleArn", fstr "..."),
                    (str "RoleSessionName", str "...")])])]),
    assign "df" (call (attr (name "lf") "collect") [] [])]⟩

/-- Snippet `credential_provider_custom_func` (file lines 48-63). -/
def credentialProviderCustomFuncSnippet : Snippet :=
  ⟨"credential_provider_custom_func",
   [funcDef "get_credentials" []
      (some (attr (name "pl") "CredentialProviderFunctionReturn"))
      [assign "expiry" noneLit,
       ret (tuple
         [dict [(str "aws_access_key_id", str "..."),
                (str "aws_secret_access_key", str "..."),
                (str "aws_session_token", str "...")],
          name "expiry"])],
    assign "lf"
      (call (attr (name "pl") "scan_parquet") [str "s3://.../..."]
        [("credential_provider", name "get_credentials")]),
    assign "df" (call (attr (name "lf") "collect") [] [])]⟩

/-- Snippet `credential_provider_custom_func_azure` (file lines 67-86). -/
def credentialProviderAzureSnippet : Snippet :=
  ⟨"credential_provider_custom_func_azure",
   [funcDef "credential_provider" [] none
      [assign "credential"
         (call (name "DefaultAzureCredential") []
           [("exclude_managed_identity_credential", boolLit true)]),
       assign "token"
         (call (attr (name "credential") "get_token")
           [str "https://storage.azure.com/.default"] []),
       ret (tuple
         [dict [(str "bearer_token", attr (name "token") "token")],
          attr (name "token") "expires_on"])],
    exprStmt
      (call (attr (name "pl") "scan_parquet") [str "abfss://...@.../..."]
        [("credential_provider", name "credential_provider")]),
    comment "Note that for the above case, this shortcut is also available:",
    exprStmt
      (call (attr (name "pl") "scan_parquet") [str "abfss://...@.../..."]
        [("credential_provider",
          call (attr (name "pl") "CredentialProviderAzure") []
            [("credentials",
              call (name "DefaultAzureCredential") []
                [("exclude_managed_identity_credential", boolLit true)])])])]⟩

/-- Snippet `scan_pyarrow_dataset` (file lines 91-100). -/
def scanPyarrowDatasetSnippet : Snippet :=
  ⟨"scan_pyarrow_dataset",
   [importAs "polars" "pl",
    importAs "pyarrow.dataset" "ds",
    assign "dset"
      (call (attr (name "ds") "dataset") [str "s3://my-partitioned-folder/"]
        [("format", str "parquet")]),
    exprStmt
      (call
        (attr
          (call
            (attr
              (call
                (attr
                  (call (attr (name "pl") "scan_pyarrow_dataset")
                    [name "dset"] [])
                  "filter")
                [cmp "=="
                  (call (attr (name "pl") "col") [str "foo"] [])
                  (str "a")]
                [])
              "select")
            [listE [str "foo", str "bar"]] [])
          "collect")
        [] [])]⟩

/-- The `pl.DataFrame` literal of the two write snippets
(file lines 106-111 and 124-129). -/
def writeDataFrameLit : PExpr :=
  call (attr (name "pl") "DataFrame")
    [dict [(str "foo", listE [str "a", str "b", str "c", str "d", str "d"]),
           (str "bar", listE [num 1, num 2, num 3, num 4, num 5])]]
    []

/-- Snippet `write_parquet` (file lines 104-115). -/
def writeParquetSnippet : Snippet :=
  ⟨"write_parquet",
   [importAs "polars" "pl",
    assign "df" writeDataFrameLit,
    assign "destination" (str "s3://bucket/my_file.parquet"),
    exprStmt (call (attr (name "df") "write_parquet") [name "destination"] [])]⟩

/-- Snippet `write_file_object` (file lines 120-137). -/
def writeFileObjectSnippet : Snippet :=
  ⟨"write_file_object",
   [importAs "polars" "pl",
    importAs "s3fs" "s3fs",
    importAs "gzip" "gzip",
    assign "df" writeDataFrameLit,
    assign "destination" (str "s3://bucket/my_file.csv.gz"),
    assign "fs" (call (attr (name "s3fs") "S3FileSystem") [] []),
    withStmt (call (attr (name "fs") "open") [name "destination", str "wb"] [])
      "cloud_f"
      [withStmt (call (attr (name "gzip") "open") [name "cloud_f", str "w"] [])
        "f"
        [exprStmt (call (attr (name "df") "write_csv") [name "f"] [])]]]⟩

/-- All nine snippets, in file order. -/
def snippets : List Snippet :=
  [readParquetSnippet, scanParquetQuerySnippet, storageOptionsAWSSnippet,
   credentialProviderClassSnippet, credentialProviderCustomFuncSnippet,
   credentialProviderAzureSnippet, scanPyarrowDatasetSnippet,
   writeParquetSnippet, writeFileObjectSnippet]

/-! ## Level 2: analyses over the snippet syntax trees -/

/-- Fuel bound for the recursive analyses; the trees are far smaller. -/
def bigFuel : Nat := 1000

/-- All identifiers occurring as a bare name in an expression
(keyword-argument names and attribute field names are syntax, not
scope references). -/
def exprNames (fuel : Nat) (e : PExpr) : List String :=
  match fuel with
  | 0 => []
  | fuel + 1 =>
    match e with
    | .name x => [x]
    | .attr e _ => exprNames fuel e
    | .call f args kwargs =>
      exprNames fuel f ++ (args.map (exprNames fuel)).flatten
        ++ (kwargs.map (fun p => exprNames fuel p.2)).flatten
    | .dict entries =>
      (entries.map (fun p => exprNames fuel p.1 ++ exprNames fuel p.2)).flatten
    | .listE es => (es.map (exprNames fuel)).flatten
    | .tuple es => (es.map (exprNames fuel)).flatten
    | .cmp _ a b => exprNames fuel a ++ exprNames fuel b
    | _ => []

/-- All names referenced anywhere in a statement, including function
bodies and return-type annotations. -/
def stmtNames (fuel : Nat) (s : PStmt) : List String :=
  match fuel with
  | 0 => []
  | fuel + 1 =>
    match s with
    | .importAs _ _ => []
    | .assign _ rhs => exprNames bigFuel rhs
    | .exprStmt e => exprNames bigFuel e
    | .funcDef _ _ ann body =>
      (match ann with
       | some a => exprNames bigFuel a
       | none => []) ++ (body.map (stmtNames fuel)).flatten
    | .ret e => exprNames bigFuel e
    | .withStmt ctx _ body =>
      exprNames bigFuel ctx ++ (body.map (stmtNames fuel)).flatten
    | .comment _ => []

/-- All names bound by a statement: import aliases, assignment targets,
function names and their parameters, `with ... as` targets, and names
bound inside function or `with` bodies. -/
def stmtBound (fuel : Nat) (s : PStmt) : List String :=
  match fuel with
  | 0 => []
  | fuel + 1 =>
    match s with
    | .importAs _ a => [a]
    | .assign x _ => [x]
    | .exprStmt _ => []
    | .funcDef n ps _ body => n :: ps ++ (body.map (stmtBound fuel)).flatten
    | .ret _ => []
    | .withStmt _ x body => x :: (body.map (stmtBound fuel)).flatten
    | .comment _ => []

/-- Names a snippet references that it neither imports nor binds. -/
def externalRefs (s : Snippet) : List String :=
  let refs := (s.stmts.map (stmtNames bigFuel)).flatten.eraseDups
  let bound := (s.stmts.map (stmtBound bigFuel)).flatten
  refs.filter (fun x => !(bound.contains x))

/-- Heads of every call in an expression, classified by the receiver:
`("pl", f)` for a `pl.f(...)` entry-point call, `(x, m)` for a method
call `x.m(...)` on a named receiver, `("chain", m)` for a method call on
the result of another expression, `("top", g)` for a plain call `g(...)`. -/
def callHeads (fuel : Nat) (e : PExpr) : List (String × String) :=
  match fuel with
  | 0 => []
  | fuel + 1 =>
    match e with
    | .call f args kwargs =>
      let sub := (args.map (callHeads fuel)).flatten
        ++ (kwargs.map (fun p => callHeads fuel p.2)).flatten
      (match f with
       | .attr (.name x) m => [(x, m)]
       | .attr inner m => (inner, m) |> fun (i, m) => ("chain", m) :: callHeads fuel i
       | .name g => [("top", g)]
       | other => callHeads fuel other) ++ sub
    | .attr e _ => callHeads fuel e
    | .dict entries =>
      (entries.map (fun p => callHeads fuel p.1 ++ callHeads fuel p.2)).flatten
    | .listE es => (es.map (callHeads fuel)).flatten
    | .tuple es => (es.map (callHeads fuel)).flatten
    | .cmp _ a b => callHeads fuel a ++ callHeads fuel b
    | _ => []

/-- Call heads of a statement, including function bodies. -/
def stmtCallHeads (fuel : Nat) (s : PStmt) : List (String × String) :=
  match fuel with
  | 0 => []
  | fuel + 1 =>
    match s with
    | .importAs _ _ => []
    | .assign _ rhs => callHeads bigFuel rhs
    | .exprStmt e => callHeads bigFuel e
    | .funcDef _ _ _ body => (body.map (stmtCallHeads fuel)).flatten
    | .ret e => callHeads bigFuel e
    | .withStmt ctx _ body =>
      callHeads bigFuel ctx ++ (body.map (stmtCallHeads fuel)).flatten
    | .comment _ => []

/-- All call heads of a snippet. -/
def snippetCallHeads (s : Snippet) : List (String × String) :=
  (s.stmts.map (stmtCallHeads bigFuel)).flatten

/-- Number of calls to the polars entry point `pl.fn(...)` in a snippet. -/
def countPlCall (s : Snippet) (fn : String) : Nat :=
  (snippetCallHeads s |>.filter (fun h => h.1 == "pl" && h.2 == fn)).length

/-- The parameter list of the first top-level function definition of the
given name in a snippet. -/
def funcParamsOf (s : Snippet) (fn : String) : Option (List String) :=
  s.stmts.findSome? fun st =>
    match st with
    | .funcDef n ps _ _ => if n = fn then some ps else none
    | _ => none

/-! ### Credential-supply forms -/

/-- The form in which a snippet hands credentials to a read call. -/
inductive CredForm where
  | mapping
  | callback
  | providerObject (cls : String)
  deriving DecidableEq, Repr

/-- Classify the value of a `credential_provider=` keyword argument. -/
def classifyCredValue : PExpr → CredForm
  | .name _ => .callback
  | .call (.attr (.name "pl") cls) _ _ => .providerObject cls
  | _ => .providerObject "unknown"

/-- Whether `fn` is one of the cloud-read entry points of the snippets. -/
def isReadEntry (fn : String) : Bool :=
  fn == "read_parquet" || fn == "scan_parquet" || fn == "scan_pyarrow_dataset"

/-- Credential-supply forms appearing in an expression: each
`storage_options=` or `credential_provider=` keyword argument of a
cloud-read entry-point call contributes one form. -/
def credForms (fuel : Nat) (e : PExpr) : List CredForm :=
  match fuel with
  | 0 => []
  | fuel + 1 =>
    match e with
    | .call f args kwargs =>
      let own :=
        match f with
        | .attr (.name "pl") fn =>
          if isReadEntry fn then
            kwargs.filterMap fun p =>
              if p.1 == "storage_options" then some .mapping
              else if p.1 == "credential_provider" then
                some (classifyCredValue p.2)
              else none
          else []
        | _ => []
      own ++ (args.map (credForms fuel)).flatten
        ++ (kwargs.map (fun p => credForms fuel p.2)).flatten
        ++ credForms fuel f
    | .attr e _ => credForms fuel e
    | .dict entries =>
      (entries.map (fun p => credForms fuel p.1 ++ credForms fuel p.2)).flatten
    | .listE es => (es.map (credForms fuel)).flatten
    | .tuple es => (es.map (credForms fuel)).flatten
    | .cmp _ a b => credForms fuel a ++ credForms fuel b
    | _ => []

/-- Credential-supply forms of a statement. -/
def stmtCredForms (fuel : Nat) (s : PStmt) : List CredForm :=
  match fuel with
  | 0 => []
  | fuel + 1 =>
    match s with
    | .importAs _ _ => []
    | .assign _ rhs => credForms bigFuel rhs
    | .exprStmt e => credForms bigFuel e
    | .funcDef _ _ _ body => (body.map (stmtCredForms fuel)).flatten
    | .ret e => credForms bigFuel e
    | .withStmt ctx _ body =>
      credForms bigFuel ctx ++ (body.map (stmtCredForms fuel)).flatten
    | .comment _ => []

/-- Credential-supply forms of a snippet. -/
def snippetCredForms (s : Snippet) : List CredForm :=
  (s.stmts.map (stmtCredForms bigFuel)).flatten

/-! ### Lazy-scan dataflow

Abstract evaluation tracking which values are deferred query plans
(`lazyV`, carrying the number of scans they contain) and which are
materialized in-memory tables (`tableV`).  `pl.scan_parquet` and
`pl.scan_pyarrow_dataset` build plans; `.filter` and `.select` keep a
plan deferred; only `.collect` turns a plan into a table, counting the
plan's scans as collected; `pl.read_parquet` and `pl.DataFrame` build
tables eagerly. -/

/-- Abstract runtime values of the dataflow analysis. -/
inductive AbsVal where
  | lazyV (n : Nat)
  | tableV
  | otherV
  deriving DecidableEq, Repr

/-- Environment lookup; unknown names are `otherV`. -/
def lookupEnv (env : List (String × AbsVal)) (x : String) : AbsVal :=
  ((env.find? fun p => p.1 == x).map Prod.snd).getD .otherV

/-- Evaluate an expression to its abstract value, also returning the
number of scans that a `.collect` inside the expression materialized. -/
def evalExpr (fuel : Nat) (env : List (String × AbsVal)) (e : PExpr) :
    AbsVal × Nat :=
  match fuel with
  | 0 => (.otherV, 0)
  | fuel + 1 =>
    match e with
    | .name x => (lookupEnv env x, 0)
    | .call (.attr (.name "pl") fn) args kwargs =>
      let c := (args.map fun a => (evalExpr fuel env a).2).sum
        + (kwargs.map fun p => (evalExpr fuel env p.2).2).sum
      if fn == "scan_parquet" || fn == "scan_pyarrow_dataset" then
        (.lazyV 1, c)
      else if fn == "read_parquet" || fn == "DataFrame" then (.tableV, c)
      else (.otherV, c)
    | .call (.attr base m) args kwargs =>
      let bv := evalExpr fuel env base
      let c := (args.map fun a => (evalExpr fuel env a).2).sum
        + (kwargs.map fun p => (evalExpr fuel env p.2).2).sum
      if m == "collect" then
        match bv.1 with
        | .lazyV n => (.tableV, bv.2 + c + n)
        | v => (v, bv.2 + c)
      else if m == "filter" || m == "select" then (bv.1, bv.2 + c)
      else (.otherV, bv.2 + c)
    | .call f args kwargs =>
      let c := (args.map fun a => (evalExpr fuel env a).2).sum
        + (kwargs.map fun p => (evalExpr fuel env p.2).2).sum
      (.otherV, (evalExpr fuel env f).2 + c)
    | .attr e _ => (.otherV, (evalExpr fuel env e).2)
    | .dict entries =>
      (.otherV, (entries.map fun p =>
        (evalExpr fuel env p.1).2 + (evalExpr fuel env p.2).2).sum)
    | .listE es => (.otherV, (es.map fun a => (evalExpr fuel env a).2).sum)
    | .tuple es => (.otherV, (es.map fun a => (evalExpr fuel env a).2).sum)
    | .cmp _ a b =>
      (.otherV, (evalExpr fuel env a).2 + (evalExpr fuel env b).2)
    | _ => (.otherV, 0)

/-- Run the statements of a snippet: thread the environment and count
collected scans.  Function bodies are not executed at definition time. -/
def runStmts (fuel : Nat) (env : List (String × AbsVal)) (collected : Nat) :
    List PStmt → List (String × AbsVal) × Nat
  | [] => (env, collected)
  | s :: rest =>
    match fuel with
    | 0 => (env, collected)
    | fuel + 1 =>
      match s with
      | .importAs _ a => runStmts fuel ((a, .otherV) :: env) collected rest
      | .assign x e =>
        let r := evalExpr bigFuel env e
        runStmts fuel ((x, r.1) :: env) (collected + r.2) rest
      | .exprStmt e =>
        runStmts fuel env (collected + (evalExpr bigFuel env e).2) rest
      | .funcDef n _ _ _ => runStmts fuel ((n, .otherV) :: env) collected rest
      | .ret e =>
        runStmts fuel env (collected + (evalExpr bigFuel env e).2) rest
      | .withStmt ctx x body =>
        let c := (evalExpr bigFuel env ctx).2
        let r := runStmts fuel ((x, .otherV) :: env) (collected + c) body
        runStmts fuel r.1 r.2 rest
      | .comment _ => runStmts fuel env collected rest

/-- Number of scans materialized by `.collect` while running a snippet. -/
def snippetCollected (s : Snippet) : Nat :=
  (runStmts bigFuel [] 0 s.stmts).2

/-- Syntactic number of lazy-scan calls (`pl.scan_parquet` or
`pl.scan_pyarrow_dataset`) in a snippet. -/
def snippetScanCount (s : Snippet) : Nat :=
  countPlCall s "scan_parquet" + countPlCall s "scan_pyarrow_dataset"

/-- Final abstract value bound to a name after running a snippet. -/
def finalVal (s : Snippet) (x : String) : AbsVal :=
  lookupEnv (runStmts bigFuel [] 0 s.stmts).1 x

/-! ## Level 3: semantic models of the credential callbacks -/

/-- A credential mapping: field names to secret strings. -/
abbrev CredMap := List (String × String)

/-- The value returned by `get_credentials` in the
`credential_provider_custom_func` snippet: the three AWS fields paired
with `expiry = None`. -/
def get_credentials (_ : Unit) : CredMap × Option Nat :=
  let expiry : Option Nat := none
  ([("aws_access_key_id", "..."),
    ("aws_secret_access_key", "..."),
    ("aws_session_token", "...")], expiry)

/-- An Azure access token as returned by
`DefaultAzureCredential(...).get_token(...)`: the token string and its
`expires_on` POSIX timestamp. -/
structure AzureToken where
  token : String
  expires_on : Nat
  deriving DecidableEq, Repr

/-- The ambient Azure SDK: resolves a scope URL to a token. -/
structure AzureSDK where
  get_token : String → AzureToken

/-- The `credential_provider` callback of the
`credential_provider_custom_func_azure` snippet: obtain a token for the
storage scope and return the bearer-token mapping with the token's
expiry. -/
def credential_provider (sdk : AzureSDK) (_ : Unit) : CredMap × Option Nat :=
  let token := sdk.get_token "https://storage.azure.com/.default"
  ([("bearer_token", token.token)], some token.expires_on)

/-- Modelled from the spec: the external library's credential driver is
not part of the artifact (only the callbacks passed to it are).  Per the
spec, the caller invokes the callback initially when no credential is
cached, keeps a cached credential while it has not expired, and
re-invokes the callback to refresh once the expiry passes; a credential
with no expiry is kept forever.  Returns the credential to use and
whether the callback was invoked for it. -/
def credentialFetch (provider : Unit → CredMap × Option Nat) (now : Nat)
    (cached : Option (CredMap × Option Nat)) :
    (CredMap × Option Nat) × Bool :=
  match cached with
  | none => (provider (), true)
  | some (m, none) => ((m, none), false)
  | some (m, some e) =>
    if e ≤ now then (provider (), true) else ((m, some e), false)

/-! ## Remaining helper definitions for the theorems -/

/-- Call heads allowed by the snippets' usage patterns: documented polars
entry points rooted at `pl`, chained lazy-query methods, the eager write
methods, and the third-party SDK helpers the snippets use. -/
def allowedHead (h : String × String) : Bool :=
  match h with
  | ("pl", f) =>
    ["read_parquet", "scan_parquet", "scan_pyarrow_dataset", "col",
     "DataFrame", "CredentialProviderAWS", "CredentialProviderAzure"].contains f
  | ("chain", m) => ["filter", "select", "collect"].contains m
  | ("lf", m) => m == "collect"
  | ("df", m) => m == "write_parquet" || m == "write_csv"
  | ("top", g) => g == "DefaultAzureCredential"
  | ("credential", m) => m == "get_token"
  | ("ds", m) => m == "dataset"
  | ("s3fs", m) => m == "S3FileSystem"
  | ("fs", m) => m == "open"
  | ("gzip", m) => m == "open"
  | _ => false

/-- Variables a statement assigns (assignment targets, function names,
`with ... as` targets and the same inside bodies) — import aliases are
not variables. -/
def stmtAssigned (fuel : Nat) (s : PStmt) : List String :=
  match fuel with
  | 0 => []
  | fuel + 1 =>
    match s with
    | .importAs _ _ => []
    | .assign x _ => [x]
    | .exprStmt _ => []
    | .funcDef n ps _ body => n :: ps ++ (body.map (stmtAssigned fuel)).flatten
    | .ret _ => []
    | .withStmt _ x body => x :: (body.map (stmtAssigned fuel)).flatten
    | .comment _ => []

/-- All variables a snippet assigns. -/
def snippetAssignedVars (s : Snippet) : List String :=
  (s.stmts.map (stmtAssigned bigFuel)).flatten

/-- The sub-expression of file line 15 before the final `.collect()`:
`pl.scan_parquet(source).filter(pl.col("id") < 100).select("id","value")`. -/
def scanParquetQueryChainNoCollect : PExpr :=
  .call
    (.attr
      (.call
        (.attr (.call (.attr (.name "pl") "scan_parquet") [.name "source"] [])
          "filter")
        [.cmp "<" (.call (.attr (.name "pl") "col") [.str "id"] []) (.num 100)]
        [])
      "select")
    [.str "id", .str "value"] []

/-- Column values of a `pl.DataFrame` literal. -/
inductive ColVals where
  | strs (xs : List String)
  | ints (xs : List Int)
  deriving DecidableEq, Repr

/-- Read the elements of a list display as string literals. -/
def strElems : List PExpr → Option (List String)
  | [] => some []
  | .str s :: rest => (strElems rest).map (s :: ·)
  | _ => none

/-- Read the elements of a list display as integer literals. -/
def intElems : List PExpr → Option (List Int)
  | [] => some []
  | .num n :: rest => (intElems rest).map (n :: ·)
  | _ => none

/-- Read one `"name": [...]` entry of a `pl.DataFrame` dict literal. -/
def colOfEntry : PExpr × PExpr → Option (String × ColVals)
  | (.str k, .listE es) =>
    match strElems es with
    | some xs => some (k, .strs xs)
    | none => (intElems es).map fun xs => (k, .ints xs)
  | _ => none

/-- The in-memory table denoted by a `pl.DataFrame({...})` literal:
its named columns with their values. -/
def tableOfDataFrameLit : PExpr → Option (List (String × ColVals))
  | .call (.attr (.name "pl") "DataFrame") [.dict entries] [] =>
    entries.mapM colOfEntry
  | _ => none

/-! ## Theorems for the claims -/

/-- C1: every credential-provider callback of the snippets takes no
required arguments (its parameter list is empty) and returns a pair of a
credential-field-to-secret mapping and an optional expiry:
`get_credentials` returns the AWS access-key/secret/session-token fields
with expiry `none` (the credential does not expire), and the Azure
`credential_provider` returns the bearer-token field with the token's
expiry. -/
theorem c1_credential_callbacks_shape :
    funcParamsOf credentialProviderCustomFuncSnippet "get_credentials" = some [] ∧
    funcParamsOf credentialProviderAzureSnippet "credential_provider" = some [] ∧
    (get_credentials ()).1.map Prod.fst
      = ["aws_access_key_id", "aws_secret_access_key", "aws_session_token"] ∧
    (get_credentials ()).2 = none ∧
    ∀ sdk : AzureSDK,
      (credential_provider sdk ()).1.map Prod.fst = ["bearer_token"] ∧
      (credential_provider sdk ()).2
        = some (sdk.get_token "https://storage.azure.com/.default").expires_on := by
  exact ⟨by decide, by decide, by decide, rfl, fun sdk => ⟨rfl, rfl⟩⟩

/-- C2: the library caller (modelled from the spec by `credentialFetch`)
invokes the callback initially when nothing is cached, re-invokes it to
obtain fresh credentials once the expiry has passed, and keeps a
credential whose expiry is `none` without re-invoking. -/
theorem c2_refresh_reinvocation (p : Unit → CredMap × Option Nat)
    (now : Nat) (m : CredMap) (e : Nat) (h : e ≤ now) :
    credentialFetch p now none = (p (), true) ∧
    credentialFetch p now (some (m, some e)) = (p (), true) ∧
    credentialFetch p now (some (m, none)) = ((m, none), false) := by
  refine ⟨rfl, ?_, rfl⟩
  simp [credentialFetch, h]

/-- Witness for C2 at a concrete provider, clock and cached credential. -/
theorem c2_refresh_reinvocation_witness :
    credentialFetch get_credentials 5 none = (get_credentials (), true) ∧
    credentialFetch get_credentials 5 (some ([], some 3))
      = (get_credentials (), true) ∧
    credentialFetch get_credentials 5 (some ([], none)) = (([], none), false) :=
  c2_refresh_reinvocation get_credentials 5 [] 3 (by decide)

/-- C3 fails as stated: the `credential_provider_class` snippet supplies
credentials through a library credential-provider object
(`pl.CredentialProviderAWS(...)`), which is neither a plain mapping nor a
user-written callback, so not every snippet uses only those two forms. -/
theorem c3_counterexample :
    snippetCredForms credentialProviderClassSnippet
      = [CredForm.providerObject "CredentialProviderAWS"] ∧
    (snippets.all fun s => (snippetCredForms s).all fun f =>
      f == CredForm.mapping || f == CredForm.callback) = false := by
  exact ⟨by decide, by decide⟩

/-- C3 amended: every snippet that supplies credentials to a cloud read
does so via a plain storage-options mapping, via a callback, or via a
library credential-provider object (`CredentialProviderAWS` or
`CredentialProviderAzure`); no other form appears, and each supplying
snippet uses exactly the forms listed. -/
theorem c3_credential_supply_forms :
    (snippets.all fun s => (snippetCredForms s).all fun f =>
      f == CredForm.mapping || f == CredForm.callback
        || f == CredForm.providerObject "CredentialProviderAWS"
        || f == CredForm.providerObject "CredentialProviderAzure") = true ∧
    snippetCredForms storageOptionsAWSSnippet = [CredForm.mapping] ∧
    snippetCredForms credentialProviderCustomFuncSnippet = [CredForm.callback] ∧
    snippetCredForms credentialProviderAzureSnippet
      = [CredForm.callback, CredForm.providerObject "CredentialProviderAzure"] ∧
    snippetCredForms credentialProviderClassSnippet
      = [CredForm.providerObject "CredentialProviderAWS"] ∧
    snippetCredForms readParquetSnippet = [] ∧
    snippetCredForms scanParquetQuerySnippet = [] ∧
    snippetCredForms scanPyarrowDatasetSnippet = [] ∧
    snippetCredForms writeParquetSnippet = [] ∧
    snippetCredForms writeFileObjectSnippet = [] := by
  decide

/-- C4 fails as stated: the azure snippet calls the library entry point
`pl.scan_parquet` twice, so it is not true that no snippet makes more
than one library entry-point call. -/
theorem c4_counterexample :
    ((snippetCallHeads credentialProviderAzureSnippet).filter fun h =>
      h.1 == "pl" && isReadEntry h.2).length = 2 ∧
    (snippets.all fun s => decide
      (((snippetCallHeads s).filter fun h =>
        h.1 == "pl" && isReadEntry h.2).length ≤ 1)) = false := by
  exact ⟨by decide, by decide⟩

/-- C4 amended: every snippet performs only imports, construction of
path strings, option/credential mappings, DataFrame literals, provider
objects and helper callbacks, one or more calls to documented library
entry points or cloud-SDK helpers, and chained filter/select/collect or
write calls; every call in every snippet has an allowed head, every
snippet makes at least one polars call, and the azure snippet makes two
`scan_parquet` entry-point calls. -/
theorem c4_snippet_usage_patterns :
    (snippets.all fun s => (snippetCallHeads s).all allowedHead) = true ∧
    (snippets.all fun s => decide
      (1 ≤ ((snippetCallHeads s).filter fun h => h.1 == "pl").length)) = true ∧
    countPlCall credentialProviderAzureSnippet "scan_parquet" = 2 := by
  exact ⟨by decide, by decide, by decide⟩

/-- C5 fails as stated: the azure snippet contains two lazy
`pl.scan_parquet` calls and materializes neither (no `.collect()`
follows them), so not every lazy scan shown is followed by an explicit
materialization step. -/
theorem c5_counterexample :
    snippetScanCount credentialProviderAzureSnippet = 2 ∧
    snippetCollected credentialProviderAzureSnippet = 0 ∧
    (snippets.all fun s => decide
      (snippetCollected s = snippetScanCount s)) = false := by
  exact ⟨by decide, by decide, by decide⟩

/-- C5 amended: a lazy scan defers execution (the scan/filter/select
chain stays a deferred plan and only `.collect()` produces a table), and
in every snippet except the azure one each lazy scan is materialized by
an explicit `collect`; the azure snippet's two scans are never
materialized. -/
theorem c5_lazy_scan_materialization :
    (snippets.all fun s =>
      s.sname == "credential_provider_custom_func_azure"
        || decide (snippetCollected s = snippetScanCount s)) = true ∧
    snippetScanCount credentialProviderAzureSnippet = 2 ∧
    snippetCollected credentialProviderAzureSnippet = 0 ∧
    evalExpr bigFuel [("source", AbsVal.otherV)] scanParquetQueryChainNoCollect
      = (AbsVal.lazyV 1, 0) ∧
    evalExpr bigFuel [("source", AbsVal.otherV)]
      (PExpr.call (PExpr.attr scanParquetQueryChainNoCollect "collect") [] [])
      = (AbsVal.tableV, 1) ∧
    finalVal scanParquetQuerySnippet "df" = AbsVal.tableV := by
  exact ⟨by decide, by decide, by decide, by decide, by decide, by decide⟩

/-- C6 fails as stated: the `credential_provider_class` snippet
references the name `pl` without importing or defining it, so not every
snippet references only names it itself imports or defines. -/
theorem c6_counterexample :
    externalRefs credentialProviderClassSnippet = ["pl"] ∧
    (snippets.all fun s => externalRefs s == []) = false := by
  exact ⟨by decide, by decide⟩

/-- C6 amended: snippets share no variables (no snippet references a
variable assigned by any snippet), and each snippet references only
names it imports or defines, except the three credential-provider
snippets, whose only outside references are the library alias `pl` and
(for the azure one) the SDK name `DefaultAzureCredential`. -/
theorem c6_snippet_independence :
    (snippets.all fun s => (externalRefs s).all fun x =>
      x == "pl" || x == "DefaultAzureCredential") = true ∧
    (snippets.all fun s =>
      externalRefs s == []
        || s.sname == "credential_provider_class"
        || s.sname == "credential_provider_custom_func"
        || s.sname == "credential_provider_custom_func_azure") = true ∧
    (snippets.all fun s => (externalRefs s).all fun x =>
      !((snippets.map snippetAssignedVars).flatten.contains x)) = true := by
  exact ⟨by decide, by decide, by decide⟩

/-- C7 fails as stated: counting the lines between the markers, the
regions measure 5, 5, 10, 12, 16, 21, 10, 13 and 18 lines, so three
regions (16, 21 and 18 lines) exceed 15 lines. -/
theorem c7_counterexample :
    regions.map regionRawLen = [5, 5, 10, 12, 16, 21, 10, 13, 18] ∧
    (regions.all fun r => decide
      (3 ≤ regionRawLen r ∧ regionRawLen r ≤ 15)) = false := by
  exact ⟨by decide, by decide⟩

/-- C7 amended: each of the nine marked regions contains between 3 and
15 non-blank lines (counting blank lines, the largest regions run to 16,
18 and 21 lines), and the whole artifact is 139 lines, well under 150. -/
theorem c7_region_lengths :
    regions.length = 9 ∧
    (regions.all fun r => decide
      (3 ≤ regionNonBlankLen r ∧ regionNonBlankLen r ≤ 15)) = true ∧
    fileLines.length = 139 ∧ fileLines.length < 150 := by
  exact ⟨by decide, by decide, by decide, by decide⟩

/-- C8: the entire file is a single module-level triple-quoted string
literal, so executing the module only binds the docstring (`__doc__`)
and produces no library calls, credential lookups or cloud I/O. -/
theorem c8_module_is_docstring_only :
    parseDocstringModule fileLines
      = some (PyModuleShape.docstringOnly ((fileLines.drop 1).dropLast)) ∧
    execModuleShape (PyModuleShape.docstringOnly ((fileLines.drop 1).dropLast))
      = (some ((fileLines.drop 1).dropLast), ([] : List ModuleEffect)) := by
  exact ⟨by decide, rfl⟩

/-- C9: the argument text of `pl.CredentialProviderAWS(...)` in the
`credential_provider_class` snippet tokenizes to a `profile_name`
keyword argument immediately followed by an `assume_role` keyword
argument with no comma between them; Python's comma-separation rule for
call arguments rejects it (a syntax error), while the same text with the
missing comma inserted is accepted. -/
theorem c9_credential_provider_class_syntax_error :
    credentialProviderAWSArgLines = [
      "        profile_name=\"...\"",
      "        assume_role=\x7b",
      "            \"RoleArn\": f\"...\",",
      "            \"RoleSessionName\": \"...\",",
      "        \x7d"] ∧
    tokenizeLines credentialProviderAWSArgLines = [
      Tok.ident "profile_name", Tok.eqSign, Tok.strLit "...",
      Tok.ident "assume_role", Tok.eqSign, Tok.lbrace,
      Tok.strLit "RoleArn", Tok.colon, Tok.fstrLit "...", Tok.comma,
      Tok.strLit "RoleSessionName", Tok.colon, Tok.strLit "...", Tok.comma,
      Tok.rbrace] ∧
    acceptsKwargList (tokenizeLines credentialProviderAWSArgLines) = false ∧
    acceptsKwargList (tokenizeLines credentialProviderAWSArgLinesFixed) = true := by
  exact ⟨by decide, by decide, by decide, by decide⟩

/-- C10: the two write snippets construct character-for-character
identical `pl.DataFrame` literals (file lines 106-111 and 124-129 are
equal, with the stated columns), their transcriptions assign the same
literal to `df`, and the literal denotes the table with columns
`foo = [a, b, c, d, d]` and `bar = [1, 2, 3, 4, 5]`. -/
theorem c10_identical_dataframe_literals :
    (fileLines.drop 105).take 6 = (fileLines.drop 123).take 6 ∧
    (fileLines.drop 105).take 6 = [
      "df = pl.DataFrame(",
      "    \x7b",
      "        \"foo\": [\"a\", \"b\", \"c\", \"d\", \"d\"],",
      "        \"bar\": [1, 2, 3, 4, 5],",
      "    \x7d",
      ")"] ∧
    writeParquetSnippet.stmts[1]? = some (PStmt.assign "df" writeDataFrameLit) ∧
    writeFileObjectSnippet.stmts[3]? = some (PStmt.assign "df" writeDataFrameLit) ∧
    tableOfDataFrameLit writeDataFrameLit
      = some [("foo", ColVals.strs ["a", "b", "c", "d", "d"]),
              ("bar", ColVals.ints [1, 2, 3, 4, 5])] := by
  exact ⟨by decide, by decide, rfl, rfl, by decide⟩

end CloudStorageDoc
